import Mathlib

/-!
Shallow embedding of the product similarity-search system
(ingest.py, main.py, embeddings.py) and verification of its
specification claims.

The online query flow (main.py, `search_products`) is modelled as a pure
function parameterised by the vector-index similarity oracle `sim`:
`sim n` stands for `VECTORSTORE.similarity_search(query, k=n)` (the call
that embeds the query via the Embedding Provider and retrieves the `n`
nearest hits).  The returned `SearchCall` records both the user-facing
outcome and the neighbour count requested from the index (`none` when the
index — and hence the Embedding Provider — was never consulted).
-/

/-- A hit returned by the vector index: the stored metadata mapping.
`main.py` reads each field with `doc.metadata.get(key, default)`, so every
field is optional here. -/
structure Hit where
  id : Option String
  name : Option String
  category : Option String
  price : Option String
deriving DecidableEq

/-- Python `str.lower()`: lowercase every character. -/
def py_lower (s : String) : String :=
  String.mk (s.data.map Char.toLower)

/-- Python `str.strip()`: drop whitespace from both ends. -/
def py_strip (s : String) : String :=
  String.mk (((s.data.dropWhile Char.isWhitespace).reverse.dropWhile
    Char.isWhitespace).reverse)

/-- The `name` metadata of a hit, with the `''` default of
`doc.metadata.get('name', '')` (main.py line 92). -/
def hitName (d : Hit) : String :=
  d.name.getD ""

/-- The filter predicate of main.py line 94: a hit survives when its
lowercased, stripped name differs from the lowercased, stripped query. -/
def survives (queryLower : String) (d : Hit) : Bool :=
  py_strip (py_lower (hitName d)) != queryLower

/-- The accumulation loop of main.py lines 91-98: walk the retrieved hits
in order, keep each surviving hit, and break as soon as the number of
kept hits reaches `num_results`.  `remaining` is `num_results` minus the
number of hits kept so far; the Python `break` after the append
corresponds to the `remaining ≤ 1` case. -/
def filter_hits (queryLower : String) : List Hit → Nat → List Hit
  | [], _ => []
  | d :: ds, remaining =>
    if survives queryLower d then
      if remaining ≤ 1 then [d]
      else d :: filter_hits queryLower ds (remaining - 1)
    else filter_hits queryLower ds remaining

/-- The four distinguishable user-facing outcomes of `search_products`:
the empty-query guidance (line 78), the raw-query-empty message
(line 85), the all-filtered-out message (line 101), and a populated
result list (lines 104-121, modelled by the hits it renders). -/
inductive SearchOutcome where
  | emptyQueryMsg : SearchOutcome
  | noProductsFound : SearchOutcome
  | noSimilarFound : SearchOutcome
  | results : List Hit → SearchOutcome
deriving DecidableEq

/-- One call of `search_products`: the outcome plus the neighbour count
requested from the vector index (`none` when `similarity_search` — and
with it the Embedding Provider — was never invoked on this call). -/
structure SearchCall where
  outcome : SearchOutcome
  simRequest : Option Nat
deriving DecidableEq

/-- main.py lines 66-124, `search_products(query, num_results)`, with the
vector index abstracted as the oracle `sim`.  The guard mirrors
`if not query or not query.strip()`; the index is queried for
`num_results + 1` neighbours; the hits are filtered by `filter_hits`. -/
def search_products (sim : Nat → List Hit) (query : String) (numResults : Nat) :
    SearchCall :=
  if query = "" ∨ py_strip query = "" then
    { outcome := SearchOutcome.emptyQueryMsg, simRequest := none }
  else
    if sim (numResults + 1) = [] then
      { outcome := SearchOutcome.noProductsFound, simRequest := some (numResults + 1) }
    else
      if filter_hits (py_strip (py_lower query)) (sim (numResults + 1)) numResults = [] then
        { outcome := SearchOutcome.noSimilarFound, simRequest := some (numResults + 1) }
      else
        { outcome := SearchOutcome.results
            (filter_hits (py_strip (py_lower query)) (sim (numResults + 1)) numResults),
          simRequest := some (numResults + 1) }

/-- The record with id "1" and name "Phone A" from the spec's
exact-match-exclusion test vector. -/
def phoneA : Hit :=
  { id := some "1", name := some "Phone A", category := none, price := none }

/-- The record with id "2" and name "Phone B" from the spec's
exact-match-exclusion test vector. -/
def phoneB : Hit :=
  { id := some "2", name := some "Phone B", category := none, price := none }

/-! ### Helper lemmas about the search model -/

/-- A query whose stripped form is nonempty fails the empty-query guard. -/
theorem search_guard_false {q : String} (hq : py_strip q ≠ "") :
    ¬(q = "" ∨ py_strip q = "") := by
  rintro (rfl | h2)
  · exact hq rfl
  · exact hq h2

/-- The accumulation loop keeps, in order, the surviving hits, truncated
to the first `k` of them (for any requested count `k ≥ 1`). -/
theorem filter_hits_eq_take_filter (qn : String) (l : List Hit) :
    ∀ k : Nat, 1 ≤ k →
      filter_hits qn l k = (l.filter (survives qn)).take k := by
  induction l with
  | nil => intro k hk; simp [filter_hits]
  | cons d ds ih =>
    intro k hk
    by_cases hd : survives qn d
    · by_cases hk1 : k ≤ 1
      · have hk' : k = 1 := Nat.le_antisymm hk1 hk
        subst hk'
        simp [filter_hits, hd]
      · have hk2 : 2 ≤ k := Nat.lt_of_not_le hk1
        cases k with
        | zero => omega
        | succ n =>
          have hn : 1 ≤ n := by omega
          simp [filter_hits, hd, hk1, ih n hn]
    · simp [filter_hits, hd, ih k hk]

/-- Under a nonempty query, a populated outcome carries exactly the
hits computed by the accumulation loop over the `k + 1` retrieved
candidates. -/
theorem search_products_results_eq (sim : Nat → List Hit) (q : String) (k : Nat)
    (hq : py_strip q ≠ "") :
    ∀ hits, (search_products sim q k).outcome = SearchOutcome.results hits →
      hits = filter_hits (py_strip (py_lower q)) (sim (k + 1)) k := by
  intro hits h
  unfold search_products at h
  rw [if_neg (search_guard_false hq)] at h
  by_cases h1 : sim (k + 1) = []
  · rw [if_pos h1] at h
    exact absurd h (by simp)
  · rw [if_neg h1] at h
    by_cases h2 : filter_hits (py_strip (py_lower q)) (sim (k + 1)) k = []
    · rw [if_pos h2] at h
      exact absurd h (by simp)
    · rw [if_neg h2] at h
      simp only [SearchCall.mk.injEq] at h
      exact (SearchOutcome.results.injEq _ _).mp h.symm

/-!
### Ingestion model (ingest.py)

`parse_products_from_markdown` splits the catalog file into blocks and
extracts up to six labelled fields per block; a block's extraction result
is a `ProductRecord` whose fields are `some v` exactly when the
corresponding regex matched.  The textual block grammar itself is an
external collaborator; the admission step (ingest.py lines 73-75) is
modelled over the extracted record sequence.
-/

/-- One extracted catalog record: each field is present (`some`) exactly
when its labelled line was found in the block. -/
structure ProductRecord where
  id : Option String
  name : Option String
  category : Option String
  price : Option String
  description : Option String
  features : Option String
deriving DecidableEq

/-- The admission test of ingest.py line 74:
`if 'id' in product and 'name' in product`. -/
def has_required_fields (p : ProductRecord) : Bool :=
  p.id.isSome && p.name.isSome

/-- The admission loop of ingest.py lines 35-77 (with per-block field
extraction abstracted into the input records): append each record that
has both `id` and `name`, in input order. -/
def parse_products_from_markdown : List ProductRecord → List ProductRecord
  | [] => []
  | p :: ps =>
    if has_required_fields p then p :: parse_products_from_markdown ps
    else parse_products_from_markdown ps

/-- The embedding text built in ingest.py lines 94-96, by the same
incremental concatenation (`page_content = ...; page_content += ...`),
with `product.get(key, '')` defaulting every missing field to `''`. -/
def page_content (p : ProductRecord) : String :=
  let c1 := (p.name.getD "") ++ "\n\n"
  let c2 := c1 ++ ((p.description.getD "") ++ "\n\n")
  c2 ++ ("Характеристики: " ++ (p.features.getD ""))

/-- A ChromaDB document as built by `create_documents_from_products`:
the embedding text plus the four retained metadata fields. -/
structure Document where
  content : String
  metaId : String
  metaName : String
  metaCategory : String
  metaPrice : String
deriving DecidableEq

/-- ingest.py lines 92-109: the document built from one product. -/
def mk_document (p : ProductRecord) : Document :=
  { content := page_content p,
    metaId := p.id.getD "",
    metaName := p.name.getD "",
    metaCategory := p.category.getD "",
    metaPrice := p.price.getD "" }

/-- ingest.py lines 80-111, `create_documents_from_products`: one
document appended per product, in order. -/
def create_documents_from_products : List ProductRecord → List Document
  | [] => []
  | p :: ps => mk_document p :: create_documents_from_products ps

/-!
### Vector-index lifecycle model (ingest.py rebuild, main.py load)

The persisted state at one storage location is `Option Collection`
(`none` = no collection on disk).  `vectorize_and_save_to_chroma` is a
state transformer: it first deletes any existing database directory,
then calls the Embedding Provider on all document texts in one batch
(`Chroma.from_documents`), and only on success writes the new
collection.  The provider is passed as a fallible batch function.
-/

/-- An embedding vector (floats modelled as rationals). -/
abbrev EmbVec : Type := List Rat

/-- A persisted collection: each document paired with its vector. -/
abbrev Collection : Type := List (EmbVec × Document)

/-- ingest.py lines 127-131: `if os.path.exists(persist_directory):
shutil.rmtree(persist_directory)` — delete the old database when it
exists, leave the (absent) state alone otherwise. -/
def delete_old_db (s : Option Collection) : Option Collection :=
  if s.isSome then none else s

/-- ingest.py lines 114-157, `vectorize_and_save_to_chroma`: delete the
old database, then embed all document texts in one batch and persist the
new collection; an Embedding Provider failure aborts after the deletion.
Returns the final persisted state and the call's result. -/
def vectorize_and_save_to_chroma
    (embed : List String → Except String (List EmbVec))
    (documents : List Document) (s : Option Collection) :
    Option Collection × Except String Collection :=
  let s1 := delete_old_db s
  match embed (documents.map (fun d => d.content)) with
  | Except.error e => (s1, Except.error e)
  | Except.ok vecs =>
    let col := vecs.zip documents
    (some col, Except.ok col)

/-- The load-failure signal of the spec's Vector Index contract. -/
inductive IndexError where
  | indexNotFound : IndexError
deriving DecidableEq

/-- Modelled from the spec: the vector storage engine attached by
`load_vectorstore` (main.py lines 16-51) is an external collaborator
whose engine code is not part of this repository; per the spec's Vector
Index contract, `load` "fails with NotFoundError if storage_location
holds no valid collection of that name", and otherwise attaches to the
persisted collection without re-embedding. -/
def load_vectorstore (s : Option Collection) : Except IndexError Collection :=
  match s with
  | none => Except.error IndexError.indexNotFound
  | some c => Except.ok c

/-!
### Embedding Provider model (embeddings.py)

`OpenRouterEmbeddings.__init__` resolves the credential from its
argument or the environment (`api_key or os.getenv("OPENROUTER_API_KEY")`,
where Python treats `None` and `""` as falsy) and raises when the
resolved value is falsy.  The remote endpoint is stubbed by a
deterministic function `f` returning one vector per input text, in input
order, for both call variants.
-/

/-- Python's `api_key or os.getenv("OPENROUTER_API_KEY")`: the argument
when it is a truthy string, otherwise the environment value. -/
def resolve_api_key (apiKeyArg : Option String) (envKey : Option String) :
    Option String :=
  match apiKeyArg with
  | some a => if a = "" then envKey else some a
  | none => envKey

/-- The constructed Embedding Provider (embeddings.py lines 13-33). -/
structure OpenRouterEmbeddings where
  model : String
  apiKey : String
  siteUrl : String
  siteName : String
deriving DecidableEq

/-- embeddings.py lines 13-33, `OpenRouterEmbeddings.__init__`: resolve
the credential, raise `ValueError` when the resolved credential is
missing or empty (`if not self.api_key`), otherwise construct the
provider. -/
def mk_openrouter_embeddings (model : String) (apiKeyArg : Option String)
    (envKey : Option String) (siteUrl : String) (siteName : String) :
    Except String OpenRouterEmbeddings :=
  match resolve_api_key apiKeyArg envKey with
  | none => Except.error "OPENROUTER_API_KEY не найден в переменных окружения"
  | some k =>
    if k = "" then Except.error "OPENROUTER_API_KEY не найден в переменных окружения"
    else Except.ok { model := model, apiKey := k, siteUrl := siteUrl, siteName := siteName }

/-- The stubbed remote endpoint on a batch input: one response vector
per input text, in input order. -/
def remote_embed_batch (f : String → EmbVec) (texts : List String) :
    List EmbVec :=
  texts.map f

/-- The stubbed remote endpoint on a single-string input: a response
carrying exactly one vector. -/
def remote_embed_single (f : String → EmbVec) (text : String) : List EmbVec :=
  [f text]

/-- embeddings.py lines 35-46, `embed_documents`: one remote call on the
whole batch, returning `[item.embedding for item in embedding.data]`. -/
def embed_documents (f : String → EmbVec) (texts : List String) :
    List EmbVec :=
  remote_embed_batch f texts

/-- embeddings.py lines 48-59, `embed_query`: a distinct remote call on
the single text, returning `embedding.data[0].embedding`. -/
def embed_query (f : String → EmbVec) (text : String) : EmbVec :=
  (remote_embed_single f text).headD []

/-! ### Further helper lemmas and concrete oracles -/

/-- Admission is exactly a filter on the required-fields test. -/
theorem parse_products_eq_filter (rs : List ProductRecord) :
    parse_products_from_markdown rs = rs.filter has_required_fields := by
  induction rs with
  | nil => rfl
  | cons p ps ih =>
    by_cases hp : has_required_fields p
    · simp [parse_products_from_markdown, List.filter_cons, hp, ih]
    · simp [parse_products_from_markdown, List.filter_cons, hp, ih]

/-- The records passing the required-fields test and those failing it
partition the input. -/
theorem filter_required_length_split (rs : List ProductRecord) :
    (rs.filter has_required_fields).length
      + (rs.filter (fun p => !has_required_fields p)).length = rs.length := by
  induction rs with
  | nil => rfl
  | cons p ps ih =>
    by_cases hp : has_required_fields p
    · simp [List.filter_cons, hp]
      omega
    · simp [List.filter_cons, hp]
      omega

/-- A similarity oracle returning the two Phone records. -/
def sim_phones : Nat → List Hit := fun _ => [phoneA, phoneB]

/-- A similarity oracle returning no hits. -/
def sim_empty : Nat → List Hit := fun _ => []

/-- An Embedding Provider batch call that always fails. -/
def failing_embed : List String → Except String (List EmbVec) :=
  fun _ => Except.error "boom"

/-! ### Claims -/

/-- Claim C1: for every query and k ≥ 1, the surviving hits are exactly
the retrieved hits whose lowercased, stripped name differs from the
lowercased, stripped query, in order, truncated to the first k; in
particular, on an index over the records named "Phone A" and "Phone B",
searching exactly "Phone A" with k = 1 never returns the "Phone A"
record. -/
theorem search_exact_match_exclusion (sim : Nat → List Hit) (q : String) (k : Nat)
    (hq : py_strip q ≠ "") (hk : 1 ≤ k) :
    (∀ hits, (search_products sim q k).outcome = SearchOutcome.results hits →
        hits = ((sim (k + 1)).filter (survives (py_strip (py_lower q)))).take k)
    ∧ (∀ sim2 : Nat → List Hit, (∀ d ∈ sim2 2, d = phoneA ∨ d = phoneB) →
        ∀ hits, (search_products sim2 "Phone A" 1).outcome = SearchOutcome.results hits →
          phoneA ∉ hits) := by
  constructor
  · intro hits h
    rw [search_products_results_eq sim q k hq hits h]
    exact filter_hits_eq_take_filter _ _ k hk
  · intro sim2 hmem hits h hmemA
    have h1 : py_strip "Phone A" ≠ "" := by decide
    have h2 := search_products_results_eq sim2 "Phone A" 1 h1 hits h
    rw [h2, filter_hits_eq_take_filter _ _ 1 (le_refl 1)] at hmemA
    have h3 : phoneA ∈ (sim2 2).filter (survives (py_strip (py_lower "Phone A"))) :=
      List.mem_of_mem_take hmemA
    have h4 := (List.mem_filter.mp h3).2
    exact absurd h4 (by decide)

/-- Witness for C1 at the spec's test vector. -/
theorem search_exact_match_exclusion_witness :
    (py_strip "Phone A" ≠ "" ∧ 1 ≤ 1)
    ∧ [phoneB] =
        ((sim_phones 2).filter (survives (py_strip (py_lower "Phone A")))).take 1 :=
  ⟨⟨by decide, by decide⟩,
   (search_exact_match_exclusion sim_phones "Phone A" 1 (by decide) (by decide)).1
     [phoneB] (by decide)⟩

/-- Claim C2: admission keeps exactly the records having both `id` and
`name`; a record lacking either is never admitted, and admitted plus
rejected counts sum to the input length. -/
theorem ingest_admission_exact (rs : List ProductRecord) :
    parse_products_from_markdown rs = rs.filter has_required_fields
    ∧ (∀ p ∈ parse_products_from_markdown rs, has_required_fields p = true)
    ∧ (parse_products_from_markdown rs).length
        + (rs.filter (fun p => !has_required_fields p)).length = rs.length := by
  refine ⟨parse_products_eq_filter rs, ?_, ?_⟩
  · intro p hp
    rw [parse_products_eq_filter rs] at hp
    exact (List.mem_filter.mp hp).2
  · rw [parse_products_eq_filter rs]
    exact filter_required_length_split rs

/-- Claim C3: each admitted record's embedding text is the pure
concatenation name + "\n\n" + description + "\n\n" + "Характеристики: "
+ features, with every missing optional field read as the empty string,
and the document list is the pointwise image of the record list. -/
theorem embedding_text_concatenation :
    (∀ ps : List ProductRecord,
        create_documents_from_products ps = ps.map mk_document)
    ∧ ∀ p : ProductRecord, (mk_document p).content =
        (p.name.getD "") ++ "\n\n" ++ (p.description.getD "") ++ "\n\n"
          ++ "Характеристики: " ++ (p.features.getD "") := by
  constructor
  · intro ps
    induction ps with
    | nil => rfl
    | cons p ps ih => simp [create_documents_from_products, ih]
  · intro p
    show page_content p = _
    unfold page_content
    simp only [String.append_assoc]

/-- Claim C4: rebuild deletes any prior persisted collection before
creating the new one (a no-op when none exists), so a rebuild whose
Embedding Provider call fails leaves no collection, and a subsequent
load of that location fails with the not-found error. -/
theorem rebuild_destructive_load_fails
    (embed : List String → Except String (List EmbVec))
    (documents : List Document) (s : Option Collection) (e : String)
    (hfail : embed (documents.map (fun d => d.content)) = Except.error e) :
    (∀ t : Option Collection, delete_old_db t = none)
    ∧ (vectorize_and_save_to_chroma embed documents s).1 = none
    ∧ load_vectorstore (vectorize_and_save_to_chroma embed documents s).1
        = Except.error IndexError.indexNotFound := by
  have hdel : ∀ t : Option Collection, delete_old_db t = none := by
    intro t
    cases t <;> rfl
  have hstate : (vectorize_and_save_to_chroma embed documents s).1 = none := by
    unfold vectorize_and_save_to_chroma
    rw [hfail]
    exact hdel s
  exact ⟨hdel, hstate, by
    rw [hstate]
    rfl⟩

/-- Witness for C4 with a failing Embedding Provider. -/
theorem rebuild_destructive_load_fails_witness :
    failing_embed (List.map (fun d => d.content) ([] : List Document))
        = Except.error "boom"
    ∧ load_vectorstore (vectorize_and_save_to_chroma failing_embed [] (some [])).1
        = Except.error IndexError.indexNotFound :=
  ⟨rfl, (rebuild_destructive_load_fails failing_embed [] (some []) "boom" rfl).2.2⟩

/-- Claim C5: an empty or all-whitespace query yields the empty-query
guidance outcome, and the similarity oracle (hence the Embedding
Provider) is never consulted: the call result is independent of it and
records no index request. -/
theorem search_empty_query_guidance (sim : Nat → List Hit) (q : String) (k : Nat)
    (hq : py_strip q = "") :
    search_products sim q k =
      { outcome := SearchOutcome.emptyQueryMsg, simRequest := none }
    ∧ ∀ sim2 : Nat → List Hit, search_products sim q k = search_products sim2 q k := by
  have hcond : q = "" ∨ py_strip q = "" := Or.inr hq
  constructor
  · unfold search_products
    rw [if_pos hcond]
  · intro sim2
    unfold search_products
    rw [if_pos hcond, if_pos hcond]

/-- Witness for C5 on the whitespace query of the spec's test. -/
theorem search_empty_query_guidance_witness :
    py_strip "   " = ""
    ∧ search_products sim_empty "   " 5 =
        { outcome := SearchOutcome.emptyQueryMsg, simRequest := none } :=
  ⟨by decide, (search_empty_query_guidance sim_empty "   " 5 (by decide)).1⟩

/-- Claim C6: every search on a nonempty query requests exactly k + 1
nearest neighbours from the vector index. -/
theorem search_overfetch_plus_one (sim : Nat → List Hit) (q : String) (k : Nat)
    (hq : py_strip q ≠ "") :
    (search_products sim q k).simRequest = some (k + 1) := by
  unfold search_products
  rw [if_neg (search_guard_false hq)]
  by_cases h1 : sim (k + 1) = []
  · rw [if_pos h1]
  · rw [if_neg h1]
    by_cases h2 : filter_hits (py_strip (py_lower q)) (sim (k + 1)) k = []
    · rw [if_pos h2]
    · rw [if_neg h2]

/-- Witness for C6 at k = 4. -/
theorem search_overfetch_plus_one_witness :
    py_strip "Phone A" ≠ ""
    ∧ (search_products sim_phones "Phone A" 4).simRequest = some 5 :=
  ⟨by decide, search_overfetch_plus_one sim_phones "Phone A" 4 (by decide)⟩

/-- Claim C7: provider construction succeeds exactly when a non-falsy
credential is resolvable from the argument or the environment, the
constructed provider carries that credential, and an unresolvable or
empty credential yields the construction-time error. -/
theorem credential_required_at_construction (model : String)
    (apiKeyArg envKey : Option String) (siteUrl siteName : String) :
    ((∃ emb, mk_openrouter_embeddings model apiKeyArg envKey siteUrl siteName
        = Except.ok emb)
      ↔ ∃ key, resolve_api_key apiKeyArg envKey = some key ∧ key ≠ "")
    ∧ (∀ emb, mk_openrouter_embeddings model apiKeyArg envKey siteUrl siteName
        = Except.ok emb →
        resolve_api_key apiKeyArg envKey = some emb.apiKey ∧ emb.apiKey ≠ "")
    ∧ ((resolve_api_key apiKeyArg envKey = none
        ∨ resolve_api_key apiKeyArg envKey = some "") →
        mk_openrouter_embeddings model apiKeyArg envKey siteUrl siteName =
          Except.error "OPENROUTER_API_KEY не найден в переменных окружения") := by
  cases hres : resolve_api_key apiKeyArg envKey with
  | none =>
    have hmk : mk_openrouter_embeddings model apiKeyArg envKey siteUrl siteName
        = Except.error "OPENROUTER_API_KEY не найден в переменных окружения" := by
      unfold mk_openrouter_embeddings
      rw [hres]
    refine ⟨?_, ?_, fun _ => hmk⟩
    · constructor
      · rintro ⟨emb, h⟩
        rw [hmk] at h
        cases h
      · rintro ⟨key, hkey, _⟩
        exact Option.noConfusion hkey
    · intro emb h
      rw [hmk] at h
      cases h
  | some k =>
    by_cases hk : k = ""
    · subst hk
      have hmk : mk_openrouter_embeddings model apiKeyArg envKey siteUrl siteName
          = Except.error "OPENROUTER_API_KEY не найден в переменных окружения" := by
        unfold mk_openrouter_embeddings
        rw [hres]
        rfl
      refine ⟨?_, ?_, fun _ => hmk⟩
      · constructor
        · rintro ⟨emb, h⟩
          rw [hmk] at h
          cases h
        · rintro ⟨key, hkey, hne⟩
          injection hkey with h2
          exact absurd h2.symm hne
      · intro emb h
        rw [hmk] at h
        cases h
    · have hmk : mk_openrouter_embeddings model apiKeyArg envKey siteUrl siteName
          = Except.ok ⟨model, k, siteUrl, siteName⟩ := by
        unfold mk_openrouter_embeddings
        rw [hres]
        exact if_neg hk
      refine ⟨?_, ?_, ?_⟩
      · constructor
        · intro _
          exact ⟨k, rfl, hk⟩
        · intro _
          exact ⟨_, hmk⟩
      · intro emb h
        rw [hmk] at h
        cases h
        exact ⟨rfl, hk⟩
      · rintro (h | h)
        · exact Option.noConfusion h
        · injection h with h2
          exact absurd h2 hk

/-- Witness for C7: construction with no argument and no environment
credential fails with the construction-time error. -/
theorem credential_required_at_construction_witness :
    mk_openrouter_embeddings "google/gemini-embedding-001" none none
        "http://localhost" "Product Search" =
      Except.error "OPENROUTER_API_KEY не найден в переменных окружения" :=
  (credential_required_at_construction "google/gemini-embedding-001" none none
    "http://localhost" "Product Search").2.2 (Or.inl rfl)

/-- Claim C8: with the remote call stubbed by a deterministic per-text
function, the single-text variant agrees with the first element of the
batch variant on a singleton, and a two-text batch is the pair of
single-text results, positionally aligned. -/
theorem embed_alignment (f : String → EmbVec) (t t1 t2 : String) :
    embed_query f t = (embed_documents f [t]).headD []
    ∧ embed_documents f [t1, t2] = [embed_query f t1, embed_query f t2] := by
  constructor <;> rfl

/-- Claim C9: on a nonempty query, whenever zero hits survive the filter
(including a raw empty retrieval) the outcome is one of the two explicit
no-results messages, and is distinct from every populated outcome. -/
theorem search_no_results_distinct (sim : Nat → List Hit) (q : String) (k : Nat)
    (hq : py_strip q ≠ "")
    (hf : filter_hits (py_strip (py_lower q)) (sim (k + 1)) k = []) :
    ((search_products sim q k).outcome = SearchOutcome.noProductsFound
      ∨ (search_products sim q k).outcome = SearchOutcome.noSimilarFound)
    ∧ ∀ hits : List Hit,
        (search_products sim q k).outcome ≠ SearchOutcome.results hits := by
  unfold search_products
  rw [if_neg (search_guard_false hq)]
  by_cases h1 : sim (k + 1) = []
  · rw [if_pos h1]
    exact ⟨Or.inl rfl, by intro hits; simp⟩
  · rw [if_neg h1, if_pos hf]
    exact ⟨Or.inr rfl, by intro hits; simp⟩

/-- Witness for C9 on an empty retrieval. -/
theorem search_no_results_distinct_witness :
    (py_strip "x" ≠ ""
      ∧ filter_hits (py_strip (py_lower "x")) (sim_empty 2) 1 = [])
    ∧ ((search_products sim_empty "x" 1).outcome = SearchOutcome.noProductsFound
        ∨ (search_products sim_empty "x" 1).outcome
            = SearchOutcome.noSimilarFound) :=
  ⟨⟨by decide, by decide⟩,
   (search_no_results_distinct sim_empty "x" 1 (by decide) (by decide)).1⟩

/-- Claim C10: every populated outcome is an order-preserving
subsequence of the retrieved candidate list (no reorder, duplicate, or
invention) of length at most k. -/
theorem search_results_sublist (sim : Nat → List Hit) (q : String) (k : Nat)
    (hq : py_strip q ≠ "") (hk : 1 ≤ k) :
    ∀ hits, (search_products sim q k).outcome = SearchOutcome.results hits →
      List.Sublist hits (sim (k + 1)) ∧ hits.length ≤ k := by
  intro hits h
  rw [search_products_results_eq sim q k hq hits h,
    filter_hits_eq_take_filter _ _ k hk]
  constructor
  · exact (List.take_sublist _ _).trans (List.filter_sublist _)
  · rw [List.length_take]
    exact Nat.min_le_left _ _

/-- Witness for C10 at the Phone test vector. -/
theorem search_results_sublist_witness :
    (py_strip "Phone A" ≠ "" ∧ 1 ≤ 1)
    ∧ (List.Sublist [phoneB] (sim_phones 2) ∧ List.length [phoneB] ≤ 1) :=
  ⟨⟨by decide, by decide⟩,
   search_results_sublist sim_phones "Phone A" 1 (by decide) (by decide)
     [phoneB] (by decide)⟩
